import Mathlib

/-!
Verification of the GPIO bridge (`gpio_bridge.py`): a shallow embedding of
the pin registry, the pulse routine, the key decoder, the dispatch loop and
the cleanup routine, together with theorems checking the specification's
claims against this embedding.

Conventions of the embedding:
* Python dicts (fixed literal tables) become association lists
  `List (key × value)` in insertion order, looked up with `List.lookup`.
* A GPIO level is a `Nat`: the source writes the strings "1" (HIGH) and
  "0" (LOW) to the sysfs value file.
* Side effects (pin writes, error logs, sleeps) are recorded as explicit
  event traces.
* `gpio_write` returns a success Bool in the source (it catches every
  exception and returns False); success/failure of each write is an
  oracle Bool parameter of the embedded routines.
-/

namespace GPIOBridge

/-- HIGH level: the source writes "1" (button not pressed / idle). -/
def HIGH : Nat := 1

/-- LOW level: the source writes "0" (button pressed). -/
def LOW : Nat := 0

/-- `self.board_to_bcm` from `__init__`: Board pin → BCM pin, in source order. -/
def board_to_bcm : List (Nat × Nat) :=
  [(31, 6), (35, 19), (29, 5), (37, 26), (33, 13), (40, 21), (38, 20), (36, 16)]

/-- `self.gpio_pins` from `__init__`: logical button name → Board pin, in source order. -/
def gpio_pins : List (String × Nat) :=
  [("up", 31), ("down", 35), ("left", 29), ("right", 37),
   ("press", 33), ("key1", 40), ("key2", 38), ("key3", 36)]

/-- `self.key_mapping` from `__init__`: key token → action name, in source order. -/
def key_mapping : List (String × String) :=
  [("\x1b[A", "up"), ("\x1b[B", "down"), ("\x1b[D", "left"), ("\x1b[C", "right"),
   (" ", "press"), ("\r", "press"),
   ("1", "key1"), ("2", "key2"), ("3", "key3"),
   ("w", "up"), ("s", "down"), ("a", "left"), ("d", "right"),
   ("q", "quit")]

/-- The eight logical buttons of the data model. -/
def logicalButtons : List String :=
  ["up", "down", "left", "right", "press", "key1", "key2", "key3"]

/-- A table is injective when equal values force equal keys among its entries. -/
def tableInjective {α β : Type} [DecidableEq α] [DecidableEq β]
    (t : List (α × β)) : Prop :=
  ∀ p ∈ t, ∀ q ∈ t, p.2 = q.2 → p.1 = q.1

instance {α β : Type} [DecidableEq α] [DecidableEq β] (t : List (α × β)) :
    Decidable (tableInjective t) := by
  unfold tableInjective; infer_instance

/-- A successful `List.lookup` key occurs among the table's keys. -/
theorem lookup_mem_keys {α β : Type} [BEq α] [LawfulBEq α]
    (t : List (α × β)) (k : α) (v : β) (h : t.lookup k = some v) :
    k ∈ t.map Prod.fst := by
  induction t with
  | nil => simp [List.lookup] at h
  | cons p rest ih =>
    rw [List.lookup] at h
    by_cases hk : k == p.1
    · have hkey : k = p.1 := eq_of_beq hk
      rw [List.map_cons, hkey]
      exact List.mem_cons_self _ _
    · rw [Bool.not_eq_true] at hk
      simp only [hk] at h
      rw [List.map_cons]
      exact List.mem_cons_of_mem _ (ih h)

/-- An observable event of the bridge's pin side: a sysfs write attempt
(with its success), an error log line, or a sleep (milliseconds). -/
inductive Ev where
  | write (pin : Nat) (value : Nat) (ok : Bool)
  | logError (msg : String)
  | sleep (ms : Nat)
  deriving DecidableEq, Repr

/-- The pin-write attempts of a trace, as (pin, value) pairs in order. -/
def writesOf : List Ev → List (Nat × Nat)
  | [] => []
  | Ev.write p v _ :: rest => (p, v) :: writesOf rest
  | Ev.logError _ :: rest => writesOf rest
  | Ev.sleep _ :: rest => writesOf rest

/-- `simulate_button_press(action, pin)` as an event trace.  `ok0`, `ok1`,
`ok2` are the success results of its three potential `gpio_write` calls:
ensure-HIGH, press-LOW, release-HIGH.  Following the source: the ensure-HIGH
result is ignored; after the 10 ms settle sleep the LOW press is attempted,
and only if it returned True does the routine hold 100 ms and attempt the
HIGH release (logging an error if the release fails); if the press returned
False it logs an error and ends. -/
def simulate_button_press (ok0 ok1 ok2 : Bool) (action : String) (pin : Nat) :
    List Ev :=
  [Ev.write pin HIGH ok0, Ev.sleep 10, Ev.write pin LOW ok1] ++
    (if ok1 then
      [Ev.sleep 100, Ev.write pin HIGH ok2] ++
        (if ok2 then [] else [Ev.logError ("Failed to release button " ++ action)])
    else
      [Ev.logError ("Failed to press button " ++ action)])

/-- `cleanup_gpio()` as an event trace: for each entry of `gpio_pins`, in
order, one `gpio_write(pin, 1)` (result ignored, success oracle `ok`),
then a 100 ms settle sleep. -/
def cleanup_gpio (ok : Nat → Bool) : List Ev :=
  (gpio_pins.enum.map fun e => Ev.write e.2.2 HIGH (ok e.1)) ++ [Ev.sleep 100]

end GPIOBridge

namespace GPIOBridge

/-- C2: for every button pulse in which no pin write fails, the levels
written to the pin are exactly HIGH, then LOW, then HIGH, in that order
with no skipped states, and the final written level is HIGH. -/
theorem pulse_writes_high_low_high (action : String) (pin : Nat)
    (ok0 ok1 ok2 : Bool) (h0 : ok0 = true) (h1 : ok1 = true) (h2 : ok2 = true) :
    writesOf (simulate_button_press ok0 ok1 ok2 action pin) =
      [(pin, HIGH), (pin, LOW), (pin, HIGH)] ∧
    (writesOf (simulate_button_press ok0 ok1 ok2 action pin)).getLast? =
      some (pin, HIGH) := by
  subst h0; subst h1; subst h2
  exact ⟨rfl, rfl⟩

/-- Witness for C2: a fully successful pulse of "up" on pin 31. -/
theorem pulse_writes_high_low_high_witness :
    writesOf (simulate_button_press true true true "up" 31) =
      [(31, HIGH), (31, LOW), (31, HIGH)] ∧
    (writesOf (simulate_button_press true true true "up" 31)).getLast? =
      some (31, HIGH) :=
  pulse_writes_high_low_high "up" 31 true true true rfl rfl rfl

/-- C6: when the LOW (press) write fails, the pulse logs the failure and
aborts: the write attempts are exactly the ensure-HIGH and the failed LOW,
with no release write afterwards, and the trace ends with the error log. -/
theorem pulse_aborts_when_press_fails (action : String) (pin : Nat)
    (ok0 ok1 ok2 : Bool) (h1 : ok1 = false) :
    writesOf (simulate_button_press ok0 ok1 ok2 action pin) =
      [(pin, HIGH), (pin, LOW)] ∧
    (simulate_button_press ok0 ok1 ok2 action pin).getLast? =
      some (Ev.logError ("Failed to press button " ++ action)) := by
  subst h1
  exact ⟨rfl, rfl⟩

/-- Witness for C6: a pulse of "down" on pin 35 whose LOW write fails. -/
theorem pulse_aborts_when_press_fails_witness :
    writesOf (simulate_button_press true false true "down" 35) =
      [(35, HIGH), (35, LOW)] ∧
    (simulate_button_press true false true "down" 35).getLast? =
      some (Ev.logError ("Failed to press button " ++ "down")) :=
  pulse_aborts_when_press_fails "down" 35 true false true rfl

/-- C4: whatever the write results, cleanup attempts exactly one HIGH write
per registered pin, in registry order, so each of the eight registered pins
receives a HIGH write exactly once. -/
theorem cleanup_writes_every_pin_high_once (ok : Nat → Bool) :
    writesOf (cleanup_gpio ok) = gpio_pins.map (fun e => (e.2, HIGH)) ∧
    ∀ e ∈ gpio_pins, (writesOf (cleanup_gpio ok)).count (e.2, HIGH) = 1 := by
  have h : writesOf (cleanup_gpio ok) =
      [(31, HIGH), (35, HIGH), (29, HIGH), (37, HIGH),
       (33, HIGH), (40, HIGH), (38, HIGH), (36, HIGH)] := rfl
  constructor
  · exact h
  · intro e he
    rw [h]
    fin_cases he <;> decide

/-- Witness for C4: with every write succeeding, the pin of "key1"
(board pin 40) gets exactly one HIGH write during cleanup. -/
theorem cleanup_writes_every_pin_high_once_witness :
    (writesOf (cleanup_gpio (fun _ => true))).count (40, HIGH) = 1 :=
  (cleanup_writes_every_pin_high_once (fun _ => true)).2 ("key1", 40) (by decide)

/-- C10: the key mapping recognizes exactly fourteen tokens — the four
3-byte arrow sequences, space and carriage return (both to "press"),
"1"/"2"/"3", "w"/"s"/"a"/"d", and "q" to "quit" — and no other token. -/
theorem key_mapping_exact :
    (key_mapping.map Prod.fst =
      ["\x1b[A", "\x1b[B", "\x1b[D", "\x1b[C", " ", "\r",
       "1", "2", "3", "w", "s", "a", "d", "q"] ∧
     key_mapping.length = 14 ∧
     key_mapping.lookup "\x1b[A" = some "up" ∧
     key_mapping.lookup "\x1b[B" = some "down" ∧
     key_mapping.lookup "\x1b[D" = some "left" ∧
     key_mapping.lookup "\x1b[C" = some "right" ∧
     key_mapping.lookup " " = some "press" ∧
     key_mapping.lookup "\r" = some "press" ∧
     key_mapping.lookup "1" = some "key1" ∧
     key_mapping.lookup "2" = some "key2" ∧
     key_mapping.lookup "3" = some "key3" ∧
     key_mapping.lookup "w" = some "up" ∧
     key_mapping.lookup "s" = some "down" ∧
     key_mapping.lookup "a" = some "left" ∧
     key_mapping.lookup "d" = some "right" ∧
     key_mapping.lookup "q" = some "quit") ∧
    ∀ s v, key_mapping.lookup s = some v →
      s ∈ ["\x1b[A", "\x1b[B", "\x1b[D", "\x1b[C", " ", "\r",
           "1", "2", "3", "w", "s", "a", "d", "q"] := by
  constructor
  · exact ⟨rfl, rfl, rfl, rfl, rfl, rfl, rfl, rfl, rfl, rfl, rfl, rfl, rfl,
      rfl, rfl, rfl⟩
  · intro s v h
    exact lookup_mem_keys key_mapping s v h

/-- Witness for C10: "w" is mapped (to "up"), hence among the fourteen
recognized tokens. -/
theorem key_mapping_exact_witness :
    "w" ∈ ["\x1b[A", "\x1b[B", "\x1b[D", "\x1b[C", " ", "\r",
           "1", "2", "3", "w", "s", "a", "d", "q"] :=
  key_mapping_exact.2 "w" "up" rfl

/-! ## Key decoder (`get_char`)

The decoder tests `if select.select([sys.stdin], [], [], 0.1):`.  In
Python, `select.select` returns the 3-tuple `(rlist, wlist, xlist)`, and
the truthiness of a tuple depends only on its number of components — a
3-tuple is always truthy, even when all three lists are empty.  We embed
enough of Python's value model to state this faithfully. -/

/-- A minimal model of the Python values produced by `select.select`. -/
inductive PyObj where
  | pyStr (s : String)
  | pyList (items : List PyObj)
  | pyTuple (items : List PyObj)

/-- Python truthiness: a string is truthy iff nonempty; a list or tuple is
truthy iff it has at least one element/component. -/
def PyObj.truthy : PyObj → Bool
  | PyObj.pyStr s => !(s == "")
  | PyObj.pyList items => !items.isEmpty
  | PyObj.pyTuple items => !items.isEmpty

/-- `select.select([sys.stdin], [], [], 0.1)`: the returned 3-tuple.  Its
first component holds stdin exactly when a byte is readable within the
timeout (`avail`); the write and exceptional lists are always empty. -/
def select_select (avail : Bool) : PyObj :=
  PyObj.pyTuple [PyObj.pyList (if avail then [PyObj.pyStr "stdin"] else []),
                 PyObj.pyList [], PyObj.pyList []]

/-- The settings value `tty.setraw` installs (an opaque token for raw mode). -/
def setraw_settings : Nat := 0

/-- Outcome of one `get_char` call.  `result` is the value returned
(`Except.error` when a read raised and the exception propagated);
`blockedReads` counts the `sys.stdin.read(1)` calls issued while no byte
was yet available — each such read blocks past the poll timeout;
`settingsApplied` lists the termios settings installed during the call, in
order (the raw mode from `tty.setraw`, then the restore from the
`finally` block). -/
structure GetCharResult where
  result : Except String (Option String)
  blockedReads : Nat
  settingsApplied : List Nat

/-- `get_char()`, embedded over an oracle of the terminal's behavior:
`init` is the settings returned by `termios.tcgetattr`; `a0 a1 a2` say
whether a byte is available within the 0.1 s timeout at each of the three
`select.select` calls; `b0 b1 b2` are the next three bytes the stream will
deliver (a `read(1)` issued while its byte is unavailable blocks until the
byte arrives); `r0 r1 r2` say whether each read raises instead.  The
`finally` clause applies the saved settings after the body, whether the
body returned or raised. -/
def get_char (init : Nat) (a0 a1 a2 : Bool) (b0 b1 b2 : Char)
    (r0 r1 r2 : Bool) : GetCharResult :=
  let old := init
  let body : Except String (Option String) × Nat :=
    if (select_select a0).truthy then
      let k0 := if a0 then 0 else 1
      if r0 then (Except.error "stdin read failed", k0)
      else
        let ch := String.singleton b0
        if b0 = '\x1b' then
          if (select_select a1).truthy then
            let k1 := k0 + (if a1 then 0 else 1)
            if r1 then (Except.error "stdin read failed", k1)
            else
              let ch1 := ch.push b1
              if (select_select a2).truthy then
                let k2 := k1 + (if a2 then 0 else 1)
                if r2 then (Except.error "stdin read failed", k2)
                else (Except.ok (some (ch1.push b2)), k2)
              else (Except.ok (some ch1), k1)
          else (Except.ok (some ch), k0)
        else (Except.ok (some ch), k0)
    else (Except.ok none, 0)
  { result := body.1, blockedReads := body.2,
    settingsApplied := [setraw_settings, old] }

/-- The condition `if select.select([sys.stdin], [], [], 0.1):` is always
true: the returned 3-tuple is truthy whether or not input is available. -/
theorem select_select_always_truthy (avail : Bool) :
    (select_select avail).truthy = true := by
  cases avail <;> rfl

/-- C1 (failing input): with no byte available within the poll timeout
(`a0 = false`, eventual byte 'x'), `get_char` does not return None — the
dead `return None` branch is skipped because the 3-tuple from
`select.select` is truthy — and instead issues a blocking read, returning
"x" only once it arrives. -/
theorem get_char_blocks_without_input :
    (get_char 42 false true true 'x' 'y' 'z' false false false).result =
      Except.ok (some "x") ∧
    (get_char 42 false true true 'x' 'y' 'z' false false false).blockedReads
      = 1 := by
  exact ⟨rfl, rfl⟩

/-- C5 (failing input): first byte ESC available, follow-up bytes not
available within the timeout (`a1 = a2 = false`).  The decoder does not
return the bare escape token: it issues two blocking reads and returns the
full 3-byte sequence once the bytes arrive. -/
theorem get_char_blocks_on_truncated_escape :
    (get_char 0 true false false '\x1b' '[' 'A' false false false).result =
      Except.ok (some "\x1b[A") ∧
    (get_char 0 true false false '\x1b' '[' 'A' false false false).blockedReads
      = 2 := by
  exact ⟨rfl, rfl⟩

/-- C8: on every path of `get_char` — no input, single byte, escape
sequence, and every combination of raised read exceptions — the last
termios settings applied are the saved prior settings: the `finally`
clause reinstates them before the call returns or propagates. -/
theorem get_char_restores_terminal (init : Nat) (a0 a1 a2 : Bool)
    (b0 b1 b2 : Char) (r0 r1 r2 : Bool) :
    ((get_char init a0 a1 a2 b0 b1 b2 r0 r1 r2).settingsApplied).getLast? =
      some init := by
  rfl

/-! ## Dispatch loop and lifecycle (`start_bridge`, `main`) -/

/-- Python `str.lower()` as used in `char.lower() == 'q'`: lowercase each
character of the token. -/
def pyLower (s : String) : String := String.mk (s.data.map Char.toLower)

/-- The read/dispatch loop of `start_bridge`, over a finite stream of
decoder outcomes (None or a key token).  Returns the pulses spawned as
(action, pin) pairs in order, and whether the loop exited via a quit
condition (`char.lower() == 'q'` or the mapped action "quit") rather than
by exhausting the modelled stream.  A None outcome continues; a token
lowercasing to "q" breaks; a mapped non-quit action with a registered pin
spawns a pulse thread; anything else continues silently. -/
def dispatch_loop : List (Option String) → List (String × Nat) × Bool
  | [] => ([], false)
  | none :: rest => dispatch_loop rest
  | some ch :: rest =>
    if pyLower ch = "q" then ([], true)
    else
      match key_mapping.lookup ch with
      | some action =>
        if action = "quit" then ([], true)
        else
          match gpio_pins.lookup action with
          | some pin =>
            let r := dispatch_loop rest
            ((action, pin) :: r.1, r.2)
          | none => dispatch_loop rest
      | none => dispatch_loop rest

/-- The observable outcome of `start_bridge`. -/
structure BridgeResult where
  success : Bool
  spawned : List (String × Nat)
  cleanupEvents : List Ev
  sawQuit : Bool

/-- `start_bridge()`, over a finite stream of decoder outcomes.  `setupOk`
is the result of `setup_gpio_sysfs`; when it is false the function returns
False before entering the loop's try/finally, so no cleanup runs.
Otherwise the loop runs and the `finally` clause invokes `stop_bridge`,
which runs `cleanup_gpio` (write successes given by `cleanupOk`), whether
the loop quit or the stream ended. -/
def start_bridge (setupOk : Bool) (cleanupOk : Nat → Bool)
    (inputs : List (Option String)) : BridgeResult :=
  if setupOk then
    let r := dispatch_loop inputs
    { success := true, spawned := r.1,
      cleanupEvents := cleanup_gpio cleanupOk, sawQuit := r.2 }
  else
    { success := false, spawned := [], cleanupEvents := [], sawQuit := false }

/-- `main()`'s process exit status: `start_bridge` returning True falls
through to a normal return (status 0); returning False triggers
`sys.exit(1)`. -/
def main_exit_code (setupOk : Bool) (cleanupOk : Nat → Bool)
    (inputs : List (Option String)) : Nat :=
  if (start_bridge setupOk cleanupOk inputs).success then 0 else 1

/-- C7: on input 'q' (or 'Q') the loop terminates at that token — the rest
of the stream is never consumed — the cleanup phase then writes HIGH to
every registered pin before the process exits, and the exit status is 0. -/
theorem quit_terminates_and_cleans_up (rest : List (Option String))
    (cleanupOk : Nat → Bool) :
    start_bridge true cleanupOk (some "q" :: rest) =
      start_bridge true cleanupOk [some "q"] ∧
    (start_bridge true cleanupOk (some "q" :: rest)).sawQuit = true ∧
    writesOf ((start_bridge true cleanupOk (some "q" :: rest)).cleanupEvents) =
      gpio_pins.map (fun e => (e.2, HIGH)) ∧
    main_exit_code true cleanupOk (some "q" :: rest) = 0 ∧
    (start_bridge true cleanupOk (some "Q" :: rest)).sawQuit = true ∧
    main_exit_code true cleanupOk (some "Q" :: rest) = 0 := by
  refine ⟨rfl, rfl, rfl, rfl, ?_, ?_⟩ <;> rfl

/-- C9: a token that is not in the key mapping and does not lowercase to
"q" spawns nothing and the loop continues: the loop's outcome on the
remaining stream is unchanged, and on the unrecognized token alone the
loop spawns no pulse and does not quit. -/
theorem unrecognized_key_is_ignored (ch : String) (rest : List (Option String))
    (hq : pyLower ch ≠ "q") (hm : key_mapping.lookup ch = none) :
    dispatch_loop (some ch :: rest) = dispatch_loop rest ∧
    dispatch_loop [some ch] = ([], false) := by
  constructor
  · simp [dispatch_loop, hq, hm]
  · simp [dispatch_loop, hq, hm]

/-- Witness for C9: the byte 'z' is unmapped; the loop treats it as a
no-op. -/
theorem unrecognized_key_is_ignored_witness :
    dispatch_loop [some "z", none] = dispatch_loop [none] ∧
    dispatch_loop [some "z"] = ([], false) :=
  unrecognized_key_is_ignored "z" [none] (by decide) (by decide)

/-- C3: the LogicalButton→PhysicalPin table (`gpio_pins`) and the
PhysicalPin→ChipPin table (`board_to_bcm`) are total on their domains —
every one of the eight logical buttons has a physical pin, and every
physical pin appearing in `gpio_pins` has a chip-pin entry — and both
tables are injective. -/
theorem tables_total_and_injective :
    (∀ b ∈ logicalButtons, (gpio_pins.lookup b).isSome) ∧
    (∀ e ∈ gpio_pins, (board_to_bcm.lookup e.2).isSome) ∧
    tableInjective gpio_pins ∧
    tableInjective board_to_bcm := by
  decide

/-- Witness for C3 at concrete entries: the button "up" has a physical pin,
that pin (31) has a chip pin, and both tables are injective. -/
theorem tables_total_and_injective_witness :
    (gpio_pins.lookup "up").isSome ∧ (board_to_bcm.lookup 31).isSome ∧
    tableInjective gpio_pins ∧ tableInjective board_to_bcm := by
  refine ⟨?_, ?_, ?_, ?_⟩
  · exact tables_total_and_injective.1 "up" (by decide)
  · exact tables_total_and_injective.2.1 ("up", 31) (by decide)
  · exact tables_total_and_injective.2.2.1
  · exact tables_total_and_injective.2.2.2

end GPIOBridge
